import Mathlib

/-!
Verification of the hyperlinked library (src/python/src/hyperlinked/__init__.py),
a shallow embedding in Lean 4.

The library formats terminal OSC8 hyperlinks.  All of its functions are string
formatting over data obtained from two external collaborators, which the
embedding makes explicit parameters:

* the runtime's call-stack introspection (inspect.currentframe /
  inspect.getouterframes / traceback.extract_stack / traceback.extract_tb) is
  passed in as explicit frame lists;
* the runtime's path resolution (pathlib.Path.resolve) is modelled as a pure
  normalisation function taking the current working directory explicitly;
* the process environment (os.environ) is passed as an Option String.

Strings are modelled by Lean String; every character of the strings the
library builds is ASCII, so character counts and byte counts coincide.
-/

namespace Hyperlinked

/-- The escape character ESC, the single byte 0x1B. -/
def escChar : Char := '\x1b'

/-- Source: osc = "\x1b]" (the two-character OSC introducer). -/
def osc : String := "\x1b]"

/-- Source: st = "\x1b\\" (the two-character string terminator ESC backslash). -/
def st : String := "\x1b\\"

/-- Source function hyperlink(text, url): returns
f"{osc}8;;{url}{st}{text}{osc}8;;{st}". -/
def hyperlink (text url : String) : String :=
  osc ++ "8;;" ++ url ++ st ++ text ++ osc ++ "8;;" ++ st

/-- Split a character list at every slash character, keeping the pieces.
Auxiliary for the path model. -/
def splitSlashAux : List Char → List Char → List (List Char)
  | acc, [] => [acc.reverse]
  | acc, c :: rest =>
    if c = '/' then acc.reverse :: splitSlashAux [] rest
    else splitSlashAux (c :: acc) rest

/-- The non-empty slash-separated components of a path string. -/
def pathComponents (p : String) : List String :=
  ((splitSlashAux [] p.data).map (fun cs => (⟨cs⟩ : String))).filter (fun c => c ≠ "")

/-- Normalise path components: drop single-dot components and let a double-dot
component cancel the preceding one (staying put at the root).  The first
argument is the already-processed prefix, innermost component first. -/
def normPath : List String → List String → List String
  | stack, [] => stack.reverse
  | stack, c :: rest =>
    if c = "." then normPath stack rest
    else if c = ".." then normPath stack.tail rest
    else normPath (c :: stack) rest

/-- Model of the external collaborator pathlib.Path.resolve: produce an
absolute, normalised path.  A path starting with a slash is already absolute;
a relative path is interpreted against the current working directory cwd,
which the embedding passes explicitly (symbolic links are not modelled). -/
def resolve (cwd p : String) : String :=
  let comps :=
    if p.data.head? = some '/' then pathComponents p
    else pathComponents cwd ++ pathComponents p
  "/" ++ String.intercalate "/" (normPath [] comps)

/-- The optional ":<line>" URL suffix. -/
def lineSuffix : Option Nat → String
  | some n => ":" ++ toString n
  | none => ""

/-- The URL built inside the source function hyperlink_to_path (the spec's
urlForLocation): url = f"{scheme}://file/{path.resolve()}", then
url += f":{line}" when a line number is given. -/
def url_for_location (path : String) (line : Option Nat) (scheme cwd : String) : String :=
  let url := scheme ++ "://file/" ++ resolve cwd path
  match line with
  | some n => url ++ ":" ++ toString n
  | none => url

/-- Source function hyperlink_to_path(text, path, line, scheme): builds the
location URL and wraps text in a hyperlink to it. -/
def hyperlink_to_path (text path : String) (line : Option Nat) (scheme cwd : String) : String :=
  hyperlink text (url_for_location path line scheme cwd)

/-- Source: SCHEME = os.environ.get("HYPERLINKED_SCHEME", "file"), read once
at module load time.  The environment is passed explicitly: env is the value
of HYPERLINKED_SCHEME at process start, if set. -/
def SCHEME (env : Option String) : String := env.getD "file"

/-- A frame as delivered by traceback.extract_stack / extract_tb: filename,
1-based line number, function name, and the source line text when available
(none when the source text could not be found). -/
structure FrameSummary where
  filename : String
  lineno : Nat
  name : String
  line : Option String
deriving DecidableEq

/-- Python str.strip() whitespace predicate (ASCII whitespace). -/
def pySpace (c : Char) : Bool :=
  c = ' ' || c = '\t' || c = '\n' || c = '\r' || c = '\x0b' || c = '\x0c'

/-- Model of Python str.strip(): remove leading and trailing whitespace. -/
def pyStrip (s : String) : String :=
  ⟨((s.data.dropWhile pySpace).reverse.dropWhile pySpace).reverse⟩

/-- The second line appended for a frame with available, non-empty source text
(Python: if frame.line: line += f"    {frame.line.strip()}\n"; both None and
the empty string are falsy). -/
def srcSuffix : Option String → String
  | none => ""
  | some src => if src = "" then "" else "    " ++ pyStrip src ++ "\n"

/-- Source function _format_hyperlinked_frame(frame, scheme): hyperlink the
location text File "<filename>", line <lineno> (the filename exactly as the
frame records it; the link target resolves it), append ", in <name>" and a
newline, and append the indented stripped source line when it is truthy. -/
def format_hyperlinked_frame (frame : FrameSummary) (scheme cwd : String) : String :=
  let location_text := "File \"" ++ frame.filename ++ "\", line " ++ toString frame.lineno
  let hyperlinked_location :=
    hyperlink_to_path location_text frame.filename (some frame.lineno) scheme cwd
  let l := "  " ++ hyperlinked_location ++ ", in " ++ frame.name ++ "\n"
  match frame.line with
  | some src => if src = "" then l else l ++ "    " ++ pyStrip src ++ "\n"
  | none => l

/-- A caller frame as seen through inspect.getouterframes: filename and line
number of the call site. -/
structure FrameInfo where
  filename : String
  lineno : Nat
deriving DecidableEq

/-- One activation of the module-level print function.  outer is
inspect.getouterframes(inspect.currentframe(), 2) as seen by this activation:
none when inspect.currentframe() returned None, otherwise the frame list
headed by print's own frame.  Returns some payload when this activation itself
writes (the branch with at least two frames, which hyperlinks the joined
arguments to the second frame, the caller), and none when it falls through to
the fallback statement print(*args, sep=sep, end=end, file=file, flush=flush),
which calls the module-level print recursively rather than builtins.print. -/
def printStep (outer : Option (List FrameInfo)) (args : List String)
    (sep scheme cwd : String) : Option String :=
  match outer with
  | some (_ :: caller :: _) =>
    some (hyperlink_to_path (String.intercalate sep args)
      (resolve cwd caller.filename) (some caller.lineno) scheme cwd)
  | _ => none

/-- The recursive execution of the module-level print, with explicit fuel:
intro d is the outer-frame list that introspection delivers to the activation
at recursion depth d.  The result is the payload finally written, or none when
no activation ever writes (the recursion never terminates). -/
def printRun : Nat → (Nat → Option (List FrameInfo)) → List String →
    String → String → String → Option String
  | 0, _, _, _, _, _ => none
  | fuel + 1, intro, args, sep, scheme, cwd =>
    match printStep (intro 0) args sep scheme cwd with
    | some out => some out
    | none => printRun fuel (fun d => intro (d + 1)) args sep scheme cwd

/-- Source function hyperlinked(text): returns text unchanged when
inspect.currentframe() is None (outer = none) or when getouterframes yields
fewer than two frames; otherwise wraps text in a hyperlink to the caller's
resolved filename and line, with the default scheme SCHEME. -/
def hyperlinked (outer : Option (List FrameInfo)) (text : String)
    (env : Option String) (cwd : String) : String :=
  match outer with
  | none => text
  | some frames =>
    match frames with
    | _ :: caller :: _ =>
      hyperlink_to_path text (resolve cwd caller.filename) (some caller.lineno)
        (SCHEME env) cwd
    | _ => text

/-- Model of traceback.extract_stack applied to a call stack listed in
outer-to-inner order: with a limit, keep only the innermost limit frames
(still in outer-to-inner order); without one, keep everything. -/
def extract_stack (stack : List FrameSummary) (limit : Option Nat) : List FrameSummary :=
  match limit with
  | none => stack
  | some n => stack.drop (stack.length - n)

/-- Source function print_stack(f, limit, file, scheme): the sequence of
strings it writes to the stream (stderr when none is given), one element per
builtins.print call, each printed with end="".  callStack is the full stack in
outer-to-inner order that extraction sees; when f is None (fGiven = false) its
last element is print_stack's own frame, and the source extracts with
limit + 1 and then drops the last entry to exclude that frame. -/
def print_stack_writes (fGiven : Bool) (callStack : List FrameSummary)
    (limit : Option Nat) (scheme cwd : String) : List String :=
  let stack :=
    if fGiven then extract_stack callStack limit
    else (extract_stack callStack (limit.map (· + 1))).dropLast
  stack.map (fun fr => format_hyperlinked_frame fr scheme cwd)

/-- Source function excepthook(exc_type, exc_value, tb, scheme): the sequence
of strings written to stderr, one element per builtins.print call.  tbFrames
is traceback.extract_tb(tb) in outer-to-inner order; excLines is what the
external collaborator traceback.format_exception_only(exc_type, exc_value)
renders.  The header is printed with the default end="\n", everything else
with end="". -/
def excepthook_writes (tbFrames : List FrameSummary) (excLines : List String)
    (scheme cwd : String) : List String :=
  "Traceback (most recent call last):\n" ::
    (tbFrames.map (fun fr => format_hyperlinked_frame fr scheme cwd) ++ excLines)

/-- Concatenation of a write sequence: the byte stream that reaches the
output stream. -/
def concatOutput : List String → String
  | [] => ""
  | s :: rest => s ++ concatOutput rest

/-- Does the character list hay start with the character list needle? -/
def listStartsWith : List Char → List Char → Bool
  | _, [] => true
  | [], _ :: _ => false
  | a :: as, b :: bs => a = b && listStartsWith as bs

/-- Does the character list needle occur contiguously inside hay? -/
def containsSeg (hay needle : List Char) : Bool :=
  match hay with
  | [] => needle.isEmpty
  | _ :: t => listStartsWith hay needle || containsSeg t needle

end Hyperlinked

namespace Hyperlinked

/-! ## Helper lemmas shared between claims -/

theorem hyperlink_data (text url : String) :
    (hyperlink text url).data =
      "\x1b]8;;".data ++ url.data ++ "\x1b\\".data ++ text.data ++ "\x1b]8;;\x1b\\".data := by
  simp only [hyperlink, osc, st, String.data_append, List.append_assoc]
  rfl

theorem hyperlink_eq (text url : String) :
    hyperlink text url = "\x1b]8;;" ++ url ++ "\x1b\\" ++ text ++ "\x1b]8;;\x1b\\" := by
  apply String.ext
  rw [hyperlink_data]
  simp only [String.data_append, List.append_assoc]

theorem resolve_exists_rest (cwd p : String) :
    ∃ rest, resolve cwd p = "/" ++ rest :=
  ⟨_, rfl⟩

theorem resolve_data_head (cwd p : String) :
    (resolve cwd p).data.head? = some '/' := by
  obtain ⟨rest, h⟩ := resolve_exists_rest cwd p
  rw [h, String.data_append]
  rfl

theorem resolve_ne_of_relative (cwd p : String) (h : p.data.head? ≠ some '/') :
    resolve cwd p ≠ p := by
  intro heq
  exact h (heq ▸ resolve_data_head cwd p)

theorem url_for_location_eq (path : String) (line : Option Nat) (scheme cwd : String) :
    url_for_location path line scheme cwd =
      scheme ++ "://file/" ++ resolve cwd path ++ lineSuffix line := by
  cases line <;> simp [url_for_location, lineSuffix, String.append_assoc]

end Hyperlinked

namespace Hyperlinked

/-! ## Claim theorems -/

/-- Claim C1: for every text string (including the empty one) and every url
string, hyperlink(text, url) is exactly the byte sequence
ESC ] 8 ; ; url ESC \ text ESC ] 8 ; ; ESC \ with ESC the single byte 0x1B:
it begins with the open-link sequence embedding url, ends with the close-link
sequence, and the text between the markers is the caller-supplied text
unmodified; for empty text the open and close markers are adjacent. -/
theorem claim_C1 (text url : String) :
    escChar.toNat = 0x1B ∧
    (hyperlink text url).data =
      [escChar, ']', '8', ';', ';'] ++ url.data ++ [escChar, '\\'] ++ text.data
        ++ [escChar, ']', '8', ';', ';', escChar, '\\'] ∧
    hyperlink "" url = ("\x1b]8;;" ++ url ++ "\x1b\\") ++ "\x1b]8;;\x1b\\" := by
  refine ⟨rfl, ?_, ?_⟩
  · rw [hyperlink_data]
    rfl
  · rw [hyperlink_eq]
    apply String.ext
    simp [String.data_append]

/-- Claim C2, counterexample: the source builds the URL as
scheme + "://file/" + resolved path, and the resolved absolute path itself
starts with a slash, so urlForLocation("/tmp/a.py", 42, "vscode") is
"vscode://file//tmp/a.py:42" with a double slash, not the claimed
"vscode://file/tmp/a.py:42". -/
theorem claim_C2_counterexample :
    url_for_location "/tmp/a.py" (some 42) "vscode" "/" = "vscode://file//tmp/a.py:42" ∧
    url_for_location "/tmp/a.py" (some 42) "vscode" "/" ≠ "vscode://file/tmp/a.py:42" := by
  constructor <;> decide

/-- Claim C2, amended: the URL is scheme ++ "://file/" followed by the fully
resolved absolute path — which itself begins with "/", so a double slash
always follows "file/" — and ends with ":line" exactly when a line number is
given; for the absolute path "/tmp/a.py" with line 42 and scheme "vscode" the
URL is exactly "vscode://file//tmp/a.py:42". -/
theorem claim_C2_amended (path : String) (line : Option Nat) (scheme cwd : String) :
    (∃ rest, resolve cwd path = "/" ++ rest ∧
      url_for_location path line scheme cwd =
        scheme ++ "://file/" ++ ("/" ++ rest) ++ lineSuffix line) ∧
    url_for_location "/tmp/a.py" (some 42) "vscode" "/" = "vscode://file//tmp/a.py:42" := by
  refine ⟨⟨_, rfl, ?_⟩, by decide⟩
  rw [url_for_location_eq]
  rfl

/-- Claim C4, counterexample: the fixed escape overhead of hyperlink is
5 + 2 + 5 + 2 = 14 bytes, not 8: for text "x" and url "u" the output has
length 16 while the claim predicts 1 + 8 + 1 = 10. -/
theorem claim_C4_counterexample :
    (hyperlink "x" "u").length = 16 ∧
    (hyperlink "x" "u").length ≠ "x".length + 8 + "u".length := by
  constructor <;> decide

/-- Claim C4, amended: for every non-empty text and every url, hyperlink(text,
url) contains text as an exact contiguous substring bounded by the fixed
open-link sequence (ESC]8;; ++ url ++ ESC\, 7 + len(url) bytes) and close-link
sequence (ESC]8;;ESC\, 7 bytes), and the output's length equals
len(text) + 14 + len(url) bytes. -/
theorem claim_C4_amended (text url : String) (h : text ≠ "") :
    hyperlink text url = ("\x1b]8;;" ++ url ++ "\x1b\\") ++ text ++ "\x1b]8;;\x1b\\" ∧
    (hyperlink text url).length = text.length + 14 + url.length := by
  constructor
  · rw [hyperlink_eq]
  · rw [hyperlink_eq]
    have h1 : ("\x1b]8;;" : String).length = 5 := rfl
    have h2 : ("\x1b\\" : String).length = 2 := rfl
    have h3 : ("\x1b]8;;\x1b\\" : String).length = 7 := rfl
    simp only [String.length_append, h1, h2, h3]
    omega


/-- Witness for claim C4 as amended, at text "x" and url "u". -/
theorem claim_C4_amended_witness :
    ("x" : String) ≠ "" ∧ (hyperlink "x" "u").length = "x".length + 14 + "u".length :=
  ⟨by decide, (claim_C4_amended "x" "u" (by decide)).2⟩

end Hyperlinked

namespace Hyperlinked

/-- Claim C3: the spec requires that, when caller-frame information is
unavailable, print falls back to a plain unlinked print and never omits the
output.  The code instead falls back by calling the module-level print
recursively (not builtins.print); with inspect.currentframe() returning None
at every depth, every activation takes the fallback branch again, so no
amount of recursion ever produces a write: the recursion is infinite and the
output is omitted. -/
theorem claim_C3 (fuel : Nat) (args : List String) (sep scheme cwd : String) :
    printRun fuel (fun _ => none) args sep scheme cwd = none := by
  induction fuel with
  | zero => rfl
  | succ n ih => exact ih

/-- Claim C5, counterexample: the formatter hyperlinks only the
File "<path>", line <n> portion; the ", in <function>" suffix is appended
after the close-link marker.  Consequently for the frame
(filename "/a.py", line 1, function "g", no source text) the character
sequence ", in g" immediately followed by ESC ] (which would have to occur if
the whole location string were inside the hyperlink, since the link text ends
exactly at the ESC ] of the close marker) occurs nowhere in the output. -/
theorem claim_C5_counterexample :
    containsSeg (format_hyperlinked_frame ⟨"/a.py", 1, "g", none⟩ "file" "/").data
      ", in g\x1b]".data = false := by
  decide

/-- Claim C5, amended: for every stack frame summary, the formatter produces
two indent spaces, then the string File "<path>", line <n> hyperlinked to the
frame's file and line, then the plain (unlinked) suffix ", in <function>" and
a newline, followed by a second indented line holding the stripped source-line
text when the source text is present and non-empty; when the source text is
unavailable (or empty) the result is the single location line. -/
theorem claim_C5_amended (fr : FrameSummary) (scheme cwd : String) :
    format_hyperlinked_frame fr scheme cwd =
      "  " ++ hyperlink_to_path ("File \"" ++ fr.filename ++ "\", line " ++ toString fr.lineno)
          fr.filename (some fr.lineno) scheme cwd
        ++ ", in " ++ fr.name ++ "\n" ++ srcSuffix fr.line := by
  rcases fr with ⟨filename, lineno, name, line⟩
  cases line with
  | none => simp [format_hyperlinked_frame, srcSuffix, String.append_assoc]
  | some src =>
    by_cases hsrc : src = ""
    · simp [format_hyperlinked_frame, srcSuffix, hsrc, String.append_assoc]
    · apply String.ext
      simp [format_hyperlinked_frame, srcSuffix, hsrc, String.data_append, List.append_assoc]

/-- Claim C6: hyperlinked(text) returns exactly the original text when no
caller frame exists: when inspect.currentframe() is None, and when the outer
frame list has fewer than two entries (no frame above the current one).  The
embedding of hyperlinked is a pure function into String, so no output-stream
writes are modelled or performed. -/
theorem claim_C6 (text : String) (env : Option String) (cwd : String) (f : FrameInfo) :
    hyperlinked none text env cwd = text ∧
    hyperlinked (some []) text env cwd = text ∧
    hyperlinked (some [f]) text env cwd = text :=
  ⟨rfl, rfl, rfl⟩

end Hyperlinked

namespace Hyperlinked

theorem concatOutput_append (a b : List String) :
    concatOutput (a ++ b) = concatOutput a ++ concatOutput b := by
  induction a with
  | nil =>
    apply String.ext
    simp [concatOutput, String.data_append]
  | cons s rest ih =>
    simp [concatOutput, ih, String.append_assoc]

theorem dropLast_drop_comm (l : List α) (i : Nat) :
    (l.drop i).dropLast = l.dropLast.drop i := by
  induction l generalizing i with
  | nil => simp
  | cons a t ih =>
    cases i with
    | zero => simp
    | succ j =>
      cases t with
      | nil => simp
      | cons b t2 =>
        simp [List.dropLast, ih]

/-- Claim C7: excepthook writes, in order, the literal header line
Traceback (most recent call last): followed by a newline, then every frame of
the traceback in outer-to-inner order in the hyperlinked frame format, then
exactly the lines the standard exception formatter renders for the exception
type and message; the write sequence is precisely that and nothing else (the
Python function returns None; the embedding returns the write sequence). -/
theorem claim_C7 (tbFrames : List FrameSummary) (excLines : List String)
    (scheme cwd : String) :
    excepthook_writes tbFrames excLines scheme cwd =
      "Traceback (most recent call last):\n"
        :: (tbFrames.map (fun fr => format_hyperlinked_frame fr scheme cwd) ++ excLines) ∧
    concatOutput (excepthook_writes tbFrames excLines scheme cwd) =
      "Traceback (most recent call last):\n"
        ++ concatOutput (tbFrames.map (fun fr => format_hyperlinked_frame fr scheme cwd))
        ++ concatOutput excLines := by
  refine ⟨rfl, ?_⟩
  simp only [excepthook_writes, concatOutput, concatOutput_append, String.append_assoc]

/-- Claim C8: when print_stack is called without an explicit starting frame
(fGiven = false), the written frames are exactly the formatted caller frames,
excluding print_stack's own frame (the last element of the introspected
stack); with a limit, the writes are the formatted innermost limit caller
frames and never more than limit of them; with an explicit starting frame the
extracted frames are formatted as they are; every write is produced by the
hyperlink frame formatter and the list order (outer-to-inner) is preserved by
the formatting map. -/
theorem claim_C8 (cs : List FrameSummary) (n : Nat) (limit : Option Nat)
    (scheme cwd : String) :
    print_stack_writes false cs none scheme cwd =
      cs.dropLast.map (fun fr => format_hyperlinked_frame fr scheme cwd) ∧
    print_stack_writes false cs (some n) scheme cwd =
      (extract_stack cs.dropLast (some n)).map
        (fun fr => format_hyperlinked_frame fr scheme cwd) ∧
    (print_stack_writes false cs (some n) scheme cwd).length ≤ n ∧
    print_stack_writes true cs limit scheme cwd =
      (extract_stack cs limit).map (fun fr => format_hyperlinked_frame fr scheme cwd) := by
  refine ⟨rfl, ?_, ?_, rfl⟩
  · show ((cs.drop (cs.length - (n + 1))).dropLast).map
        (fun fr => format_hyperlinked_frame fr scheme cwd) =
      (cs.dropLast.drop (cs.dropLast.length - n)).map
        (fun fr => format_hyperlinked_frame fr scheme cwd)
    rw [dropLast_drop_comm, List.length_dropLast]
    congr 2
    omega
  · show (((cs.drop (cs.length - (n + 1))).dropLast).map
        (fun fr => format_hyperlinked_frame fr scheme cwd)).length ≤ n
    simp only [List.length_map, List.length_dropLast, List.length_drop]
    omega

/-- Claim C9: with HYPERLINKED_SCHEME unset at process start the default
scheme is exactly "file"; with it set, its value is the default; and every
URL built with the unset-environment default starts with "file://file/".
The default is computed once from the process-start environment (a pure
function of it) and the library never mutates it. -/
theorem claim_C9 (v path : String) (line : Option Nat) (cwd : String) :
    SCHEME none = "file" ∧
    SCHEME (some v) = v ∧
    (∃ rest, url_for_location path line (SCHEME none) cwd = "file://file/" ++ rest) := by
  refine ⟨rfl, rfl, resolve cwd path ++ lineSuffix line, ?_⟩
  rw [url_for_location_eq]
  apply String.ext
  simp [String.data_append, List.append_assoc, SCHEME]

/-- Claim C10: in every produced frame line the visible location text shows
the frame's filename exactly as recorded (the hyperlink text is built from
fr.filename verbatim), while the embedded URL uses the resolved absolute form
of that path; for a frame whose recorded filename is relative (does not start
with a slash), the displayed path and the resolved link target differ. -/
theorem claim_C10 (fr : FrameSummary) (scheme cwd : String) :
    format_hyperlinked_frame fr scheme cwd =
      "  " ++ hyperlink ("File \"" ++ fr.filename ++ "\", line " ++ toString fr.lineno)
          (scheme ++ "://file/" ++ resolve cwd fr.filename ++ ":" ++ toString fr.lineno)
        ++ ", in " ++ fr.name ++ "\n" ++ srcSuffix fr.line ∧
    (fr.filename.data.head? ≠ some '/' → resolve cwd fr.filename ≠ fr.filename) := by
  constructor
  · rcases fr with ⟨filename, lineno, name, line⟩
    cases line with
    | none =>
      simp [format_hyperlinked_frame, srcSuffix, hyperlink_to_path, url_for_location,
        String.append_assoc]
    | some src =>
      by_cases hsrc : src = ""
      · simp [format_hyperlinked_frame, srcSuffix, hsrc, hyperlink_to_path,
          url_for_location, String.append_assoc]
      · apply String.ext
        simp [format_hyperlinked_frame, srcSuffix, hsrc, hyperlink_to_path,
          url_for_location, String.data_append, List.append_assoc]
  · exact resolve_ne_of_relative cwd fr.filename

/-- Witness for claim C10 at the concrete relative filename "a.py" with
current working directory "/tmp": the resolved link target differs from the
displayed path. -/
theorem claim_C10_witness : resolve "/tmp" "a.py" ≠ "a.py" :=
  (claim_C10 ⟨"a.py", 3, "f", none⟩ "file" "/tmp").2 (by decide)

end Hyperlinked
